import Mathlib

/-!
Verification of the reCAPTCHA v2 sync solver
(`playwright_recaptcha/recaptchav2/sync_solver.py`).

The Python code is thin orchestration over a browser-automation page:
we embed it shallowly.  Pure string processing (the two `re.search`
calls of `_extract_token`) is translated directly; the effectful parts
(`solve_recaptcha`'s retry loop, `_submit_audio_text`'s wait loop,
`_convert_audio_to_text`'s pipeline and `close`) are embedded as
functions over an explicit environment describing the page's
observable behaviour, producing a result, an event trace and the list
of network responses the listener processed.
-/

namespace SyncSolver

/-- A network response as seen by the `response` page listener:
its URL and its body text. -/
structure Response where
  url : String
  body : String
deriving DecidableEq, Repr

/-- `strStartsWith s p` : the char list `p` is an initial segment of `s`. -/
def strStartsWith : List Char → List Char → Bool
  | _, [] => true
  | [], _ :: _ => false
  | c :: cs, p :: ps => c == p && strStartsWith cs ps

/-- `containsSub s p` : `p` occurs as a contiguous substring of `s`.
This is `re.search` for a literal pattern. -/
def containsSub : List Char → List Char → Bool
  | [], p => strStartsWith [] p
  | s@(_ :: rest), p => strStartsWith s p || containsSub rest p

/-- The URL test of `_extract_token`:
`re.search("/recaptcha/(api2|enterprise)/userverify", url)` is not `None`.
The pattern is literal apart from the two-way alternation, so it matches
exactly when one of the two literal strings occurs in the URL. -/
def isUserverifyUrl (url : String) : Bool :=
  containsSub url.data "/recaptcha/api2/userverify".data ||
    containsSub url.data "/recaptcha/enterprise/userverify".data

/-- The literal lead-in of the token pattern `r'"uvresp","(.*?)"'` :
the ten characters `"uvresp","`. -/
def uvMarker : List Char := '"' :: 'u' :: 'v' :: 'r' :: 'e' :: 's' :: 'p' :: '"' :: ',' :: '"' :: []

/-- The lazy tail `(.*?)"` of the token pattern, at a fixed position:
consume characters up to the first `'"'` and capture them; `.` does not
match a newline, so a newline before any `'"'` means no match here. -/
def takeCapture : List Char → Option (List Char)
  | [] => none
  | c :: rest =>
    if c = '"' then some []
    else if c = '\n' then none
    else (takeCapture rest).map (c :: ·)

/-- `re.search(r'"uvresp","(.*?)"', body)`: try every start position left
to right; at the first position where the marker matches and a lazy
capture closes, return the captured characters. -/
def findUvresp : List Char → Option (List Char)
  | [] => none
  | s@(_ :: rest) =>
    if strStartsWith s uvMarker then
      match takeCapture (s.drop 10) with
      | some cap => some cap
      | none => findUvresp rest
    else findUvresp rest

/-- `SyncSolver._extract_token`, as a transformer of the solver's `token`
field: if the response URL matches the userverify pattern and the body
contains a `"uvresp","(.*?)"` match, the token becomes the capture;
otherwise the field is left unchanged. -/
def extract_token (st : Option String) (r : Response) : Option String :=
  if isUserverifyUrl r.url then
    match findUvresp r.body.data with
    | some cap => some (String.mk cap)
    | none => st
  else st

/-! Declarative characterisation of the token regex, used to state C4
independently of the executable matcher. -/

/-- Declaratively: at the very start of `s` the marker occurs, followed by
the capture `tok`, a closing `'"'`, and a remainder; the capture contains
no `'"'` (laziness: the first closing quote ends it) and no newline
(`.` does not match newlines). -/
def CapAt (s tok : List Char) : Prop :=
  ∃ rest, s = uvMarker ++ tok ++ '"' :: rest ∧ '"' ∉ tok ∧ '\n' ∉ tok

/-- Declaratively: `tok` is the capture of the leftmost match of
`r'"uvresp","(.*?)"'` in `s` — some position yields it, and no earlier
position yields any capture. -/
def UvrespMatch (s tok : List Char) : Prop :=
  ∃ i, CapAt (s.drop i) tok ∧ ∀ j < i, ∀ tok', ¬ CapAt (s.drop j) tok'

/-! The solver state.  `__init__` stores the page, the retry count and
sets the single mutable field `token` to `None`. -/

/-- The mutable state of a `SyncSolver`: the single `token` field. -/
structure SolverState where
  token : Option String
deriving DecidableEq, Repr

/-- The state produced by `SyncSolver.__init__`: `self.token = None`. -/
def initState : SolverState := ⟨none⟩

/-- The default of the constructor's `retries` parameter. -/
def defaultRetries : Int := 3

/-- `retries = retries or self._retries` — Python `or` on an
`Optional[int]`: `None` and `0` are falsy and fall back to the
constructor's value, any other integer is kept. -/
def effectiveRetries (arg : Option Int) (ctor : Int) : Int :=
  match arg with
  | none => ctor
  | some n => if n = 0 then ctor else n

/-- The errors `solve_recaptcha` can raise. -/
inductive RecaptchaError
  | rateLimit
  | solveFailure
deriving DecidableEq, Repr

/-- Observable solver actions, recorded as an event trace:
the initial checkbox click, one event per audio-challenge attempt, and
each click of the "Get a new challenge" button. -/
inductive Ev
  | clickCheckbox
  | audioAttempt
  | clickNewChallenge
deriving DecidableEq, Repr

/-- How one iteration of the retry-loop body ends, as dictated by the
page: `_get_audio_url` raises `RecaptchaRateLimitError`,
`_submit_audio_text` raises it, or `_submit_audio_text` returns
normally and the checkbox is then observed in state `checked`. -/
inductive Outcome
  | rateLimitAudio
  | rateLimitSubmit
  | submitted (checked : Bool)
deriving DecidableEq, Repr

/-- The page's behaviour during one loop iteration: the network
responses delivered to the listener during it, and how it ends. -/
structure Attempt where
  responses : List Response
  outcome : Outcome

/-- The page's behaviour over a whole `solve_recaptcha` run: responses
delivered between listener registration and the first checkbox test,
whether the checkbox is checked right after the initial click, and the
behaviour of each subsequent loop iteration. -/
structure Env where
  initResponses : List Response
  initChecked : Bool
  attempts : Nat → Attempt

/-- What a run produces: the returned token or the raised error, the
event trace, and the responses the listener processed. -/
structure RunOut where
  result : Except RecaptchaError (Option String)
  events : List Ev
  processed : List Response

/-- The `while retries > 0` loop of `solve_recaptcha`, entered with the
checkbox unchecked.  Each iteration runs an audio-challenge attempt;
a rate limit propagates out of the loop; a successful check breaks and
the token field is returned; otherwise the "Get a new challenge" button
is clicked and `retries` is decremented.  When the loop exhausts its
budget the checkbox is still unchecked and `RecaptchaSolveError` is
raised. -/
def solveLoop (env : Env) : Nat → Nat → Option String → RunOut
  | 0, _, _ => ⟨.error .solveFailure, [], []⟩
  | fuel + 1, k, st =>
    let a := env.attempts k
    let st' := a.responses.foldl extract_token st
    match a.outcome with
    | .rateLimitAudio => ⟨.error .rateLimit, [.audioAttempt], a.responses⟩
    | .rateLimitSubmit => ⟨.error .rateLimit, [.audioAttempt], a.responses⟩
    | .submitted true => ⟨.ok st', [.audioAttempt], a.responses⟩
    | .submitted false =>
      let rest := solveLoop env fuel (k + 1) st'
      ⟨rest.result, .audioAttempt :: .clickNewChallenge :: rest.events,
        a.responses ++ rest.processed⟩

/-- `SyncSolver.solve_recaptcha`: register the response listener,
compute the effective retry count, click the checkbox; if it is already
checked return `self.token`, else run the retry loop.  The initial
token value `st0` is `None` for a freshly constructed solver. -/
def solve_recaptcha (env : Env) (arg : Option Int) (ctorRetries : Int)
    (st0 : Option String) : RunOut :=
  let retries := effectiveRetries arg ctorRetries
  let st1 := env.initResponses.foldl extract_token st0
  if env.initChecked then
    ⟨.ok st1, [.clickCheckbox], env.initResponses⟩
  else
    let rest := solveLoop env retries.toNat 0 st1
    ⟨rest.result, .clickCheckbox :: rest.events,
      env.initResponses ++ rest.processed⟩

/-! The wait loop of `_submit_audio_text`. -/

/-- What the reCAPTCHA frame shows at one polling step of
`_submit_audio_text`'s wait loop. -/
structure UiState where
  multipleSolutions : Bool
  checked : Bool
  tryAgainLater : Bool

/-- How `_submit_audio_text` ends: a normal return (recording the
checkbox state at the moment the loop broke) or a raised
`RecaptchaRateLimitError`. -/
inductive SubmitResult
  | returned (checked : Bool)
  | rateLimited
deriving DecidableEq, Repr

/-- The `while True` poll of `_submit_audio_text` after filling the
textbox and clicking Verify: break when the "Multiple correct solutions
required - please solve more." message is visible or the checkbox is
checked; raise on "Try again later"; otherwise wait 100ms and poll
again.  `fuel` bounds how many polls we observe; `none` means the loop
was still polling. -/
def submitLoop (obs : Nat → UiState) : Nat → Nat → Option SubmitResult
  | 0, _ => none
  | fuel + 1, i =>
    let u := obs i
    if u.multipleSolutions || u.checked then some (.returned u.checked)
    else if u.tryAgainLater then some .rateLimited
    else submitLoop obs fuel (i + 1)

/-! The wait loop of `_get_audio_url`. -/

/-- What the reCAPTCHA frame shows at one polling step of
`_get_audio_url`'s wait loop. -/
structure AudioUi where
  pressPlay : Bool
  tryAgainLater : Bool

/-- How `_get_audio_url` ends: the `href` of the MP3 download link, or
a raised `RecaptchaRateLimitError`. -/
inductive AudioUrlResult
  | url (href : String)
  | rateLimited
deriving DecidableEq, Repr

/-- The `while True` poll of `_get_audio_url`: break when "Press PLAY
to listen" is visible (then read the MP3 link's `href`); raise on "Try
again later"; otherwise wait 100ms and poll again. -/
def audioUrlLoop (obs : Nat → AudioUi) (href : String) :
    Nat → Nat → Option AudioUrlResult
  | 0, _ => none
  | fuel + 1, i =>
    let u := obs i
    if u.pressPlay then some (.url href)
    else if u.tryAgainLater then some .rateLimited
    else audioUrlLoop obs href fuel (i + 1)

/-! The audio pipeline `_convert_audio_to_text`. -/

/-- Raw byte payloads handled by the pipeline's collaborators. -/
abbrev Bytes := List Nat

/-- One alternative in the speech API's result. -/
structure SpeechAlt where
  transcript : String
deriving DecidableEq, Repr

/-- The speech API's result: its list of alternatives
(`text["alternative"]`). -/
structure SpeechResult where
  alternative : List SpeechAlt

/-- The pipeline's external collaborators: `httpx.get(url).content`,
the pydub MP3 decode plus WAV export, `recognizer.record`, and
`recognizer.recognize_google(..., show_all=True)`. -/
structure AudioApi where
  httpGet : String → Bytes
  fromMp3 : Bytes → Bytes
  record : Bytes → Bytes
  recognizeGoogle : Bytes → SpeechResult

/-- The external calls `_convert_audio_to_text` makes, in order. -/
inductive AudioEvent
  | httpGet (url : String)
  | decodeMp3ToWav
  | recordAudio
  | recognize
deriving DecidableEq, Repr

/-- `SyncSolver._convert_audio_to_text`: GET the MP3 at `audio_url`,
decode it and export a WAV, record it as audio data, call the speech
API, and return `text["alternative"][0]["transcript"]` — `none` models
the exception raised when there is no alternative.  The second
component records the external calls in the order performed. -/
def convert_audio_to_text (api : AudioApi) (audio_url : String) :
    Option String × List AudioEvent :=
  let content := api.httpGet audio_url
  let wav_audio := api.fromMp3 content
  let audio_data := api.record wav_audio
  let text := api.recognizeGoogle audio_data
  (text.alternative.head?.map SpeechAlt.transcript,
    [.httpGet audio_url, .decodeMp3ToWav, .recordAudio, .recognize])

/-! `close` and the page's listener registry. -/

/-- The exception relevant to `close`: playwright's `remove_listener`
raises `KeyError` when the handler is not registered. -/
inductive PyErr
  | keyError
deriving DecidableEq, Repr

/-- `page.remove_listener("response", handler)` over the page's
registry of response handlers: remove one registration, or raise
`KeyError` when the handler is absent. -/
def remove_listener (listeners : List String) (handler : String) :
    Except PyErr (List String) :=
  if handler ∈ listeners then .ok (listeners.erase handler)
  else .error .keyError

/-- `SyncSolver.close`: remove the `_extract_token` response listener,
swallowing the `KeyError` raised when it was never registered (or was
already removed). -/
def close (listeners : List String) : Except PyErr (List String) :=
  match remove_listener listeners "extract_token" with
  | .ok ls => .ok ls
  | .error .keyError => .ok listeners

/-! Multiplicity of an event in a trace. -/

/-- How many times the event `e` occurs in a trace. -/
def countEv (e : Ev) : List Ev → Nat
  | [] => 0
  | e' :: evs => (if e' = e then 1 else 0) + countEv e evs

/-! Concrete inputs used to instantiate the theorems. -/

/-- A userverify response whose body carries the token `tk`. -/
def respOk : Response := ⟨"/recaptcha/api2/userverify", "[\"uvresp\",\"tk\"]"⟩

/-- An unrelated response: wrong URL, token-free body. -/
def respBad : Response := ⟨"https://example.com/other", "nothing here"⟩

/-- A loop iteration whose audio submission goes through but leaves the
checkbox unchecked. -/
def attemptFail : Attempt := ⟨[], .submitted false⟩

/-- A page whose checkbox is checked right after the initial click but
that delivered no userverify response. -/
def envChecked : Env := ⟨[], true, fun _ => attemptFail⟩

/-- A page on which every audio attempt completes unsuccessfully. -/
def envFail : Env := ⟨[], false, fun _ => attemptFail⟩

/-- A page that rate-limits the very first audio attempt. -/
def envRateLimited : Env := ⟨[], false, fun _ => ⟨[], .rateLimitAudio⟩⟩

/-- A page whose checkbox is checked right after the initial click and
that delivered a userverify response carrying `tk`. -/
def envTokenized : Env := ⟨[respOk], true, fun _ => attemptFail⟩

/-- A frame that always shows the "Multiple correct solutions required"
message with the checkbox unchecked. -/
def uiMultiple : Nat → UiState := fun _ => ⟨true, false, false⟩

/-- A frame that always shows "Try again later". -/
def uiRateLimited : Nat → UiState := fun _ => ⟨false, false, true⟩

/-- An audio-challenge frame that always shows "Try again later". -/
def audioUiRateLimited : Nat → AudioUi := fun _ => ⟨false, true⟩

/-- Collaborators for the audio pipeline whose speech API yields the
single alternative `hello`. -/
def apiDemo : AudioApi :=
  ⟨fun _ => [], fun b => b, fun b => b, fun _ => ⟨⟨"hello"⟩ :: []⟩⟩

/-! Correctness of the regex model. -/

theorem strStartsWith_iff (s p : List Char) :
    strStartsWith s p = true ↔ ∃ rest, s = p ++ rest := by
  induction p generalizing s with
  | nil => simp [strStartsWith]
  | cons c cs ih =>
    cases s with
    | nil => simp [strStartsWith]
    | cons a as =>
      simp only [strStartsWith, Bool.and_eq_true, beq_iff_eq, ih]
      constructor
      · rintro ⟨h1, rest, h2⟩
        exact ⟨rest, by simp [h1, h2]⟩
      · rintro ⟨rest, h⟩
        simp only [List.cons_append, List.cons.injEq] at h
        exact ⟨h.1, rest, h.2⟩

theorem takeCapture_eq_some_iff (s tok : List Char) :
    takeCapture s = some tok ↔
      (∃ rest, s = tok ++ '"' :: rest ∧ '"' ∉ tok ∧ '\n' ∉ tok) := by
  induction s generalizing tok with
  | nil =>
    simp only [takeCapture]
    constructor
    · intro h; cases h
    · rintro ⟨rest, h, -, -⟩
      exact absurd h.symm (by simp)
  | cons c rest ih =>
    by_cases hq : c = '"'
    · subst hq
      simp only [takeCapture, if_pos rfl]
      constructor
      · rintro h
        cases h
        exact ⟨rest, rfl, by simp, by simp⟩
      · rintro ⟨rest', h, hq', -⟩
        cases tok with
        | nil => simp_all
        | cons t ts =>
          simp only [List.cons_append, List.cons.injEq] at h
          exact absurd (h.1 ▸ List.mem_cons_self t ts) (h.1 ▸ hq')
    · by_cases hn : c = '\n'
      · subst hn
        simp only [takeCapture, if_neg hq, if_pos rfl]
        constructor
        · intro h; cases h
        · rintro ⟨rest', h, hq', hn'⟩
          cases tok with
          | nil => simp_all
          | cons t ts =>
            simp only [List.cons_append, List.cons.injEq] at h
            exact absurd (h.1 ▸ List.mem_cons_self t ts) (h.1 ▸ hn')
      · simp only [takeCapture, if_neg hq, if_neg hn]
        constructor
        · intro h
          rcases Option.map_eq_some'.mp h with ⟨ts, hts, htok⟩
          rcases (ih ts).mp hts with ⟨rest', hr, hq', hn'⟩
          refine ⟨rest', by simp [← htok, hr], ?_, ?_⟩
          · simp only [← htok, List.mem_cons, not_or]
            exact ⟨fun h => hq h.symm, hq'⟩
          · simp only [← htok, List.mem_cons, not_or]
            exact ⟨fun h => hn h.symm, hn'⟩
        · rintro ⟨rest', h, hq', hn'⟩
          cases tok with
          | nil =>
            simp only [List.nil_append] at h
            injection h with h1 h2
            exact absurd h1 hq
          | cons t ts =>
            simp only [List.cons_append, List.cons.injEq] at h
            have hts : takeCapture rest = some ts := by
              refine (ih ts).mpr ⟨rest', h.2, ?_, ?_⟩
              · intro hm; exact hq' (List.mem_cons_of_mem t hm)
              · intro hm; exact hn' (List.mem_cons_of_mem t hm)
            simp [hts, h.1]

/-- A position admits a capture exactly when the marker starts there and
the lazy tail closes. -/
theorem capAt_iff (s tok : List Char) :
    CapAt s tok ↔
      strStartsWith s uvMarker = true ∧ takeCapture (s.drop 10) = some tok := by
  constructor
  · rintro ⟨rest, hs, hq, hn⟩
    have hstart : strStartsWith s uvMarker = true :=
      (strStartsWith_iff s uvMarker).mpr ⟨tok ++ '"' :: rest, by simp [hs]⟩
    have hdrop : s.drop 10 = tok ++ '"' :: rest := by
      have : uvMarker.length = 10 := by decide
      simp [hs, List.drop_append_of_le_length, this]
    exact ⟨hstart, (takeCapture_eq_some_iff _ tok).mpr ⟨rest, hdrop, hq, hn⟩⟩
  · rintro ⟨hstart, hcap⟩
    rcases (strStartsWith_iff s uvMarker).mp hstart with ⟨tail, hs⟩
    rcases (takeCapture_eq_some_iff _ tok).mp hcap with ⟨rest, hdrop, hq, hn⟩
    have hlen : uvMarker.length = 10 := by decide
    have : s.drop 10 = tail := by
      simp [hs, List.drop_append_of_le_length, hlen]
    exact ⟨rest, by rw [hs, ← this, hdrop, List.append_assoc], hq, hn⟩

/-- Correctness of the executable matcher against the declarative
leftmost-lazy semantics of `re.search(r'"uvresp","(.*?)"', ·)`. -/
theorem findUvresp_eq_some_iff (s tok : List Char) :
    findUvresp s = some tok ↔ UvrespMatch s tok := by
  induction s with
  | nil =>
    simp only [findUvresp, UvrespMatch]
    constructor
    · intro h; cases h
    · rintro ⟨i, hcap, -⟩
      rcases hcap with ⟨rest, h, -, -⟩
      exact absurd h (by simp)
  | cons c cs ih =>
    constructor
    · intro h
      simp only [findUvresp] at h
      by_cases hstart : strStartsWith (c :: cs) uvMarker = true
      · rw [if_pos hstart] at h
        cases hcap : takeCapture ((c :: cs).drop 10) with
        | some cap =>
          rw [hcap] at h
          cases h
          exact ⟨0, (capAt_iff _ _).mpr ⟨hstart, hcap⟩, by omega⟩
        | none =>
          rw [hcap] at h
          rcases ih.mp h with ⟨i, hci, hmin⟩
          refine ⟨i + 1, by simpa using hci, ?_⟩
          intro j hj tok' hc'
          cases j with
          | zero =>
            rcases (capAt_iff _ _).mp (by simpa using hc') with ⟨-, hcap'⟩
            rw [show List.drop 10 (c :: cs) = List.drop 9 cs from rfl] at hcap hcap'
            rw [hcap] at hcap'
            cases hcap'
          | succ j' =>
            exact hmin j' (by omega) tok' (by simpa using hc')
      · rw [if_neg hstart] at h
        rcases ih.mp h with ⟨i, hci, hmin⟩
        refine ⟨i + 1, by simpa using hci, ?_⟩
        intro j hj tok' hc'
        cases j with
        | zero =>
          rcases (capAt_iff _ _).mp (by simpa using hc') with ⟨hstart', -⟩
          exact hstart hstart'
        | succ j' =>
          exact hmin j' (by omega) tok' (by simpa using hc')
    · rintro ⟨i, hci, hmin⟩
      simp only [findUvresp]
      cases i with
      | zero =>
        rcases (capAt_iff _ _).mp (by simpa using hci) with ⟨hstart, hcap⟩
        rw [if_pos hstart, hcap]
      | succ i' =>
        have htail : findUvresp cs = some tok := by
          refine ih.mpr ⟨i', by simpa using hci, ?_⟩
          intro j hj tok' hc'
          exact hmin (j + 1) (by omega) tok' (by simpa using hc')
        by_cases hstart : strStartsWith (c :: cs) uvMarker = true
        · have hnone : ∀ tok', ¬ CapAt (c :: cs) tok' := by
            intro tok' hc'
            exact hmin 0 (by omega) tok' (by simpa using hc')
          rw [if_pos hstart]
          cases hcap : takeCapture ((c :: cs).drop 10) with
          | some cap =>
            exact absurd ((capAt_iff _ _).mpr ⟨hstart, hcap⟩) (hnone cap)
          | none => exact htail
        · rw [if_neg hstart]; exact htail

/-! Lemmas about the response listener folded over a response list. -/

theorem extract_token_isSome (st : Option String) (r : Response) :
    (extract_token st r).isSome =
      (st.isSome || (isUserverifyUrl r.url && (findUvresp r.body.data).isSome)) := by
  unfold extract_token
  by_cases h1 : isUserverifyUrl r.url = true
  · rw [if_pos h1, h1]
    cases h2 : findUvresp r.body.data <;> simp
  · rw [if_neg h1]
    simp only [Bool.not_eq_true] at h1
    rw [h1]
    simp

theorem foldl_extract_isSome (rs : List Response) (st : Option String) :
    (rs.foldl extract_token st).isSome =
      (st.isSome ||
        rs.any fun r => isUserverifyUrl r.url && (findUvresp r.body.data).isSome) := by
  induction rs generalizing st with
  | nil => simp
  | cons r rs ih =>
    simp only [List.foldl_cons, List.any_cons, ih, extract_token_isSome, Bool.or_assoc]

theorem foldl_extract_provenance (rs : List Response) (st : Option String) (t : String)
    (h : rs.foldl extract_token st = some t) :
    st = some t ∨
      ∃ r ∈ rs, isUserverifyUrl r.url = true ∧ findUvresp r.body.data = some t.data := by
  induction rs generalizing st with
  | nil => exact Or.inl (by simpa using h)
  | cons r rs ih =>
    simp only [List.foldl_cons] at h
    rcases ih _ h with h' | ⟨r', hr', hu, hf⟩
    · unfold extract_token at h'
      by_cases hurl : isUserverifyUrl r.url = true
      · rw [if_pos hurl] at h'
        cases hf : findUvresp r.body.data with
        | some cap =>
          rw [hf] at h'
          have hc : String.mk cap = t := by injection h'
          refine Or.inr ⟨r, List.mem_cons_self r rs, hurl, ?_⟩
          rw [hf, ← hc]
        | none =>
          rw [hf] at h'
          exact Or.inl h'
      · rw [if_neg hurl] at h'
        exact Or.inl h'
    · exact Or.inr ⟨r', List.mem_cons_of_mem _ hr', hu, hf⟩

/-! Lemmas about the retry loop. -/

theorem solveLoop_audio_le (env : Env) (fuel : Nat) :
    ∀ k st, countEv .audioAttempt (solveLoop env fuel k st).events ≤ fuel := by
  induction fuel with
  | zero => intro k st; simp [solveLoop, countEv]
  | succ fuel ih =>
    intro k st
    cases ho : (env.attempts k).outcome with
    | rateLimitAudio => simp [solveLoop, ho, countEv]
    | rateLimitSubmit => simp [solveLoop, ho, countEv]
    | submitted c =>
      cases c with
      | true => simp [solveLoop, ho, countEv]
      | false =>
        have h := ih (k + 1) ((env.attempts k).responses.foldl extract_token st)
        simp only [solveLoop, ho, countEv]
        simp only [show (Ev.audioAttempt = Ev.audioAttempt) = True from by simp,
          show (Ev.clickNewChallenge = Ev.audioAttempt) = False from by simp,
          if_true, if_false]
        omega

theorem solveLoop_failure_iff (env : Env) (fuel : Nat) :
    ∀ k st, (solveLoop env fuel k st).result = .error .solveFailure ↔
      ∀ j < fuel, (env.attempts (k + j)).outcome = .submitted false := by
  induction fuel with
  | zero => intro k st; simp [solveLoop]
  | succ fuel ih =>
    intro k st
    cases ho : (env.attempts k).outcome with
    | rateLimitAudio =>
      simp only [solveLoop, ho]
      constructor
      · intro h; cases h
      · intro h
        have h0 := h 0 (Nat.succ_pos fuel)
        rw [Nat.add_zero, ho] at h0
        cases h0
    | rateLimitSubmit =>
      simp only [solveLoop, ho]
      constructor
      · intro h; cases h
      · intro h
        have h0 := h 0 (Nat.succ_pos fuel)
        rw [Nat.add_zero, ho] at h0
        cases h0
    | submitted c =>
      cases c with
      | true =>
        simp only [solveLoop, ho]
        constructor
        · intro h; cases h
        · intro h
          have h0 := h 0 (Nat.succ_pos fuel)
          rw [Nat.add_zero, ho] at h0
          simp at h0
      | false =>
        simp only [solveLoop, ho]
        rw [ih (k + 1) ((env.attempts k).responses.foldl extract_token st)]
        constructor
        · intro h j hj
          cases j with
          | zero => rw [Nat.add_zero]; exact ho
          | succ j' =>
            have h' := h j' (by omega)
            rw [show k + 1 + j' = k + (j' + 1) from by omega] at h'
            exact h'
        · intro h j hj
          have h' := h (j + 1) (by omega)
          rw [show k + (j + 1) = k + 1 + j from by omega] at h'
          exact h'

theorem solveLoop_failure_counts (env : Env) (fuel : Nat) :
    ∀ k st, (solveLoop env fuel k st).result = .error .solveFailure →
      countEv .audioAttempt (solveLoop env fuel k st).events = fuel ∧
      countEv .clickNewChallenge (solveLoop env fuel k st).events = fuel := by
  induction fuel with
  | zero => intro k st _; simp [solveLoop, countEv]
  | succ fuel ih =>
    intro k st h
    cases ho : (env.attempts k).outcome with
    | rateLimitAudio => rw [solveLoop] at h; simp [ho] at h
    | rateLimitSubmit => rw [solveLoop] at h; simp [ho] at h
    | submitted c =>
      cases c with
      | true => rw [solveLoop] at h; simp [ho] at h
      | false =>
        simp only [solveLoop, ho] at h ⊢
        have h' := ih (k + 1) ((env.attempts k).responses.foldl extract_token st) h
        simp only [countEv,
          show (Ev.audioAttempt = Ev.audioAttempt) = True from by simp,
          show (Ev.clickNewChallenge = Ev.audioAttempt) = False from by simp,
          show (Ev.audioAttempt = Ev.clickNewChallenge) = False from by simp,
          show (Ev.clickNewChallenge = Ev.clickNewChallenge) = True from by simp,
          if_true, if_false]
        omega

theorem solveLoop_ok_token (env : Env) (fuel : Nat) :
    ∀ k st t, (solveLoop env fuel k st).result = .ok t →
      t = (solveLoop env fuel k st).processed.foldl extract_token st := by
  induction fuel with
  | zero => intro k st t h; simp [solveLoop] at h
  | succ fuel ih =>
    intro k st t h
    cases ho : (env.attempts k).outcome with
    | rateLimitAudio => rw [solveLoop] at h; simp [ho] at h
    | rateLimitSubmit => rw [solveLoop] at h; simp [ho] at h
    | submitted c =>
      cases c with
      | true =>
        simp only [solveLoop, ho] at h ⊢
        injection h with h
        exact h.symm
      | false =>
        simp only [solveLoop, ho] at h ⊢
        rw [List.foldl_append]
        exact ih (k + 1) _ t h

theorem solveLoop_processed_mem (env : Env) (fuel : Nat) :
    ∀ k st r, r ∈ (solveLoop env fuel k st).processed →
      ∃ j, r ∈ (env.attempts j).responses := by
  induction fuel with
  | zero => intro k st r h; simp [solveLoop] at h
  | succ fuel ih =>
    intro k st r h
    cases ho : (env.attempts k).outcome with
    | rateLimitAudio =>
      rw [solveLoop] at h; simp only [ho] at h
      exact ⟨k, h⟩
    | rateLimitSubmit =>
      rw [solveLoop] at h; simp only [ho] at h
      exact ⟨k, h⟩
    | submitted c =>
      cases c with
      | true =>
        rw [solveLoop] at h; simp only [ho] at h
        exact ⟨k, h⟩
      | false =>
        rw [solveLoop] at h
        simp only [ho, List.mem_append] at h
        rcases h with h | h
        · exact ⟨k, h⟩
        · exact ih (k + 1) _ r h

theorem solveLoop_runs (env : Env) (fuel k : Nat) (st : Option String) :
    1 ≤ countEv .audioAttempt (solveLoop env (fuel + 1) k st).events := by
  cases ho : (env.attempts k).outcome with
  | rateLimitAudio => simp [solveLoop, ho, countEv]
  | rateLimitSubmit => simp [solveLoop, ho, countEv]
  | submitted c =>
    cases c with
    | true => simp [solveLoop, ho, countEv]
    | false =>
      simp only [solveLoop, ho, countEv,
        show (Ev.audioAttempt = Ev.audioAttempt) = True from by simp, if_true]
      omega

/-! Lemmas about the whole `solve_recaptcha` run. -/

theorem solve_ok_token (env : Env) (arg : Option Int) (c : Int) (st0 : Option String)
    (t : Option String) (h : (solve_recaptcha env arg c st0).result = .ok t) :
    t = (solve_recaptcha env arg c st0).processed.foldl extract_token st0 := by
  by_cases hc : env.initChecked = true
  · simp only [solve_recaptcha, if_pos hc] at h ⊢
    injection h with h
    exact h.symm
  · simp only [solve_recaptcha, if_neg hc] at h ⊢
    rw [List.foldl_append]
    exact solveLoop_ok_token env _ 0 _ t h

theorem solve_processed_mem (env : Env) (arg : Option Int) (c : Int)
    (st0 : Option String) (r : Response)
    (h : r ∈ (solve_recaptcha env arg c st0).processed) :
    r ∈ env.initResponses ∨ ∃ j, r ∈ (env.attempts j).responses := by
  by_cases hc : env.initChecked = true
  · simp only [solve_recaptcha, if_pos hc] at h
    exact Or.inl h
  · simp only [solve_recaptcha, if_neg hc, List.mem_append] at h
    rcases h with h | h
    · exact Or.inl h
    · exact Or.inr (solveLoop_processed_mem env _ 0 _ r h)

/-! The claims. -/

/-- C1 (counterexample): a run in which the checkbox becomes checked
right after the initial click while no userverify response was
processed returns `None`, not a non-None token string: `solve_recaptcha`
returns the token field without ensuring it was populated. -/
theorem solve_checked_without_token :
    envChecked.initChecked = true ∧
    (solve_recaptcha envChecked none 3 none).result = Except.ok none :=
  ⟨rfl, rfl⟩

/-- C1 (amended): when `solve_recaptcha` returns normally it returns the
current value of the solver's token field — the response listener's fold
over the processed responses — and that value is a non-None string if
and only if some processed response was a userverify response whose
body contained a `"uvresp","..."` match. -/
theorem solve_token_from_userverify (env : Env) (arg : Option Int) (c : Int)
    (t : Option String) (h : (solve_recaptcha env arg c none).result = .ok t) :
    t = (solve_recaptcha env arg c none).processed.foldl extract_token none ∧
    (t.isSome = true ↔ ∃ r ∈ (solve_recaptcha env arg c none).processed,
      isUserverifyUrl r.url = true ∧ (findUvresp r.body.data).isSome = true) := by
  have ht := solve_ok_token env arg c none t h
  refine ⟨ht, ?_⟩
  rw [ht, foldl_extract_isSome]
  simp [List.any_eq_true, Bool.and_eq_true]

/-- C1 (witness): on a page delivering a userverify response carrying
`tk` before the checkbox is first seen checked, the run returns
`some "tk"`, which is the listener's fold and is non-None. -/
theorem solve_token_from_userverify_witness :
    some "tk" =
      (solve_recaptcha envTokenized none 3 none).processed.foldl extract_token none ∧
    ((some "tk" : Option String).isSome = true ↔
      ∃ r ∈ (solve_recaptcha envTokenized none 3 none).processed,
        isUserverifyUrl r.url = true ∧ (findUvresp r.body.data).isSome = true) :=
  solve_token_from_userverify envTokenized none 3 (some "tk") rfl

/-- C2: with the checkbox unchecked after the initial click, the retry
loop performs at most N audio-challenge attempts (N the effective
retries value); it raises `RecaptchaSolveError` exactly when every one
of the N attempts completes with the checkbox still unchecked, and in
that case every one of the N failed attempts is followed by a "Get a
new challenge" click (N clicks for N attempts). -/
theorem solve_retry_bound (env : Env) (arg : Option Int) (c : Int)
    (st0 : Option String) (h : env.initChecked = false) :
    countEv .audioAttempt (solve_recaptcha env arg c st0).events ≤
        (effectiveRetries arg c).toNat ∧
      ((solve_recaptcha env arg c st0).result = .error .solveFailure ↔
        ∀ j < (effectiveRetries arg c).toNat,
          (env.attempts j).outcome = .submitted false) ∧
      ((solve_recaptcha env arg c st0).result = .error .solveFailure →
        countEv .audioAttempt (solve_recaptcha env arg c st0).events =
            (effectiveRetries arg c).toNat ∧
          countEv .clickNewChallenge (solve_recaptcha env arg c st0).events =
            (effectiveRetries arg c).toNat) := by
  have hnc : ¬ env.initChecked = true := by simp [h]
  simp only [solve_recaptcha, if_neg hnc]
  refine ⟨?_, ?_, ?_⟩
  · simpa [countEv] using
      solveLoop_audio_le env (effectiveRetries arg c).toNat 0
        (env.initResponses.foldl extract_token st0)
  · simpa using
      solveLoop_failure_iff env (effectiveRetries arg c).toNat 0
        (env.initResponses.foldl extract_token st0)
  · intro hf
    have h2 := solveLoop_failure_counts env (effectiveRetries arg c).toNat 0
      (env.initResponses.foldl extract_token st0) hf
    exact ⟨by simpa [countEv] using h2.1, by simpa [countEv] using h2.2⟩

/-- C2 (witness): on a page failing every attempt with two effective
retries, the solve fails after exactly two attempts and two "Get a new
challenge" clicks. -/
theorem solve_retry_bound_witness :
    countEv .audioAttempt (solve_recaptcha envFail none 2 none).events =
        (effectiveRetries none 2).toNat ∧
      countEv .clickNewChallenge (solve_recaptcha envFail none 2 none).events =
        (effectiveRetries none 2).toNat :=
  (solve_retry_bound envFail none 2 none rfl).2.2 rfl

/-- C3 (counterexample): on a page that rate-limits the first audio
attempt, the solve aborts with `RecaptchaRateLimitError` after a single
attempt even though three retries remained — the retry loop does not
continue past rate-limiting. -/
theorem rate_limit_no_retry :
    envRateLimited.initChecked = false ∧
    (envRateLimited.attempts 0).outcome = .rateLimitAudio ∧
    (solve_recaptcha envRateLimited none 3 none).result = .error .rateLimit ∧
    countEv .audioAttempt (solve_recaptcha envRateLimited none 3 none).events = 1 :=
  ⟨rfl, rfl, rfl, rfl⟩

/-- C3 (amended): when an attempt encounters rate-limiting — the "Try
again later" message, which makes both `_get_audio_url` and
`_submit_audio_text` raise `RecaptchaRateLimitError` — the exception
propagates and the solve aborts immediately: the rate-limited attempt
is the last one and no "Get a new challenge" click follows. -/
theorem rate_limit_aborts (env : Env) (fuel k : Nat) (st : Option String)
    (obsA : Nat → AudioUi) (href : String) (fA iA : Nat)
    (obsS : Nat → UiState) (fS iS : Nat)
    (h : (env.attempts k).outcome = .rateLimitAudio ∨
      (env.attempts k).outcome = .rateLimitSubmit)
    (ha1 : (obsA iA).pressPlay = false) (ha2 : (obsA iA).tryAgainLater = true)
    (hs1 : (obsS iS).multipleSolutions = false) (hs2 : (obsS iS).checked = false)
    (hs3 : (obsS iS).tryAgainLater = true) :
    (solveLoop env (fuel + 1) k st).result = .error .rateLimit ∧
    (solveLoop env (fuel + 1) k st).events = .audioAttempt :: [] ∧
    audioUrlLoop obsA href (fA + 1) iA = some .rateLimited ∧
    submitLoop obsS (fS + 1) iS = some .rateLimited := by
  refine ⟨?_, ?_, ?_, ?_⟩
  · rcases h with h | h <;> simp [solveLoop, h]
  · rcases h with h | h <;> simp [solveLoop, h]
  · simp [audioUrlLoop, ha1, ha2]
  · simp [submitLoop, hs1, hs2, hs3]

/-- C3 (witness): on the rate-limited page, any remaining budget yields
an immediate `RecaptchaRateLimitError` after one attempt, and both wait
loops raise when the frame shows "Try again later". -/
theorem rate_limit_aborts_witness :
    (solveLoop envRateLimited (0 + 1) 0 none).result = .error .rateLimit ∧
    (solveLoop envRateLimited (0 + 1) 0 none).events = .audioAttempt :: [] ∧
    audioUrlLoop audioUiRateLimited "href" (0 + 1) 0 = some .rateLimited ∧
    submitLoop uiRateLimited (0 + 1) 0 = some .rateLimited :=
  rate_limit_aborts envRateLimited 0 0 none audioUiRateLimited "href" 0 0
    uiRateLimited 0 0 (Or.inl rfl) rfl rfl rfl rfl rfl

/-- C4: `_extract_token` sets the token field exactly when the response
URL matches `/recaptcha/(api2|enterprise)/userverify` and the body has
a `"uvresp","(.*?)"` match; the token then becomes the capture of the
leftmost match, closed by the next `'"'` (the declarative leftmost-lazy
semantics `UvrespMatch`); in every other case the field is unchanged. -/
theorem extract_token_spec (st : Option String) (r : Response) :
    (∀ tok : List Char, isUserverifyUrl r.url = true → UvrespMatch r.body.data tok →
      extract_token st r = some (String.mk tok)) ∧
    ((isUserverifyUrl r.url = false ∨ ∀ tok : List Char, ¬ UvrespMatch r.body.data tok) →
      extract_token st r = st) := by
  constructor
  · intro tok hu hm
    have hf : findUvresp r.body.data = some tok := (findUvresp_eq_some_iff _ _).mpr hm
    simp [extract_token, hu, hf]
  · rintro (hu | hm)
    · simp [extract_token, hu]
    · unfold extract_token
      cases hf : findUvresp r.body.data with
      | none => split <;> rfl
      | some cap => exact absurd ((findUvresp_eq_some_iff _ _).mp hf) (hm cap)

/-- C4 (witness): on the userverify response whose body is
`["uvresp","tk"]` the listener sets the token to `tk`. -/
theorem extract_token_spec_witness :
    extract_token none respOk = some (String.mk ('t' :: 'k' :: [])) :=
  (extract_token_spec none respOk).1 ('t' :: 'k' :: []) rfl
    ((findUvresp_eq_some_iff (String.data (Response.body respOk))
      ('t' :: 'k' :: [])).mp rfl)

/-- C5: the solver's only mutable state is the token field — `__init__`
sets it to `None`, and on every normally returning run the returned
token equals the `_extract_token` fold over exactly the responses the
listener processed, all of which came from the page. -/
theorem token_state_invariant :
    initState.token = none ∧
    ∀ (env : Env) (arg : Option Int) (c : Int) (st0 t : Option String),
      (solve_recaptcha env arg c st0).result = .ok t →
      t = (solve_recaptcha env arg c st0).processed.foldl extract_token st0 ∧
      ∀ r ∈ (solve_recaptcha env arg c st0).processed,
        r ∈ env.initResponses ∨ ∃ j, r ∈ (env.attempts j).responses := by
  refine ⟨rfl, ?_⟩
  intro env arg c st0 t h
  exact ⟨solve_ok_token env arg c st0 t h,
    fun r hr => solve_processed_mem env arg c st0 r hr⟩

/-- C5 (witness): on the tokenized page the returned value `some "tk"`
is the listener's fold over the processed responses, each of which the
page delivered. -/
theorem token_state_invariant_witness :
    some "tk" =
      (solve_recaptcha envTokenized none 3 none).processed.foldl extract_token none ∧
    ∀ r ∈ (solve_recaptcha envTokenized none 3 none).processed,
      r ∈ envTokenized.initResponses ∨ ∃ j, r ∈ (envTokenized.attempts j).responses :=
  token_state_invariant.2 envTokenized none 3 none (some "tk") rfl

/-- C6: a response with a non-matching URL, or a userverify response
with no `"uvresp","..."` match in its body, leaves the token field
unchanged; and whenever the fold over processed responses produces a
token it either was there already or came from a userverify response
whose body contained exactly that capture. -/
theorem extract_token_frame (st : Option String) (r : Response) :
    ((isUserverifyUrl r.url = false → extract_token st r = st) ∧
      (findUvresp r.body.data = none → extract_token st r = st)) ∧
    ∀ (rs : List Response) (t : String), rs.foldl extract_token st = some t →
      st = some t ∨
        ∃ r' ∈ rs, isUserverifyUrl r'.url = true ∧ findUvresp r'.body.data = some t.data := by
  refine ⟨⟨?_, ?_⟩, ?_⟩
  · intro h
    simp [extract_token, h]
  · intro h
    unfold extract_token
    rw [h]
    split <;> rfl
  · exact fun rs t h => foldl_extract_provenance rs st t h

/-- C6 (witness): the unrelated response leaves `some "a"` unchanged,
and a fold ending at `some "tk"` traces back to the userverify
response. -/
theorem extract_token_frame_witness :
    extract_token (some "a") respBad = some "a" ∧
    (some "a" = some "tk" ∨
      ∃ r' ∈ respOk :: [], isUserverifyUrl r'.url = true ∧
        findUvresp r'.body.data = some (String.data "tk")) :=
  ⟨(extract_token_frame (some "a") respBad).1.1 rfl,
    (extract_token_frame (some "a") respOk).2 (respOk :: []) "tk" rfl⟩

/-- C7: `_convert_audio_to_text` performs, in order, the HTTP GET of
the MP3 at the audio URL, the MP3-to-WAV conversion, the recording, and
the remote speech-recognition call, each feeding the next; it returns
the transcript of the first alternative of the API's result. -/
theorem convert_audio_pipeline (api : AudioApi) (audio_url : String) :
    (convert_audio_to_text api audio_url).2 =
      AudioEvent.httpGet audio_url :: AudioEvent.decodeMp3ToWav ::
        AudioEvent.recordAudio :: AudioEvent.recognize :: [] ∧
    (convert_audio_to_text api audio_url).1 =
      ((api.recognizeGoogle (api.record (api.fromMp3
        (api.httpGet audio_url)))).alternative.head?).map SpeechAlt.transcript ∧
    ∀ (alt : SpeechAlt) (alts : List SpeechAlt),
      (api.recognizeGoogle (api.record (api.fromMp3
        (api.httpGet audio_url)))).alternative = alt :: alts →
      (convert_audio_to_text api audio_url).1 = some alt.transcript := by
  refine ⟨rfl, rfl, ?_⟩
  intro alt alts h
  simp [convert_audio_to_text, h]

/-- C7 (witness): with a speech API yielding the single alternative
`hello`, the pipeline's transcript is `hello`. -/
theorem convert_audio_pipeline_witness :
    (convert_audio_to_text apiDemo "http://audio.mp3").1 =
      some (SpeechAlt.mk "hello").transcript :=
  (convert_audio_pipeline apiDemo "http://audio.mp3").2.2 ⟨"hello"⟩ [] rfl

/-- C8: `retries=0` and `retries=None` are falsy, so the effective
retry count falls back to the constructor's value (default 3), and with
the default constructor a `retries=0` call still runs at least one
attempt on an unchecked page. -/
theorem retries_falsy_fallback :
    (∀ c : Int, effectiveRetries (some 0) c = c ∧ effectiveRetries none c = c) ∧
    defaultRetries = 3 ∧
    ∀ (env : Env) (st0 : Option String), env.initChecked = false →
      1 ≤ countEv .audioAttempt
        (solve_recaptcha env (some 0) defaultRetries st0).events := by
  refine ⟨fun c => ⟨rfl, rfl⟩, rfl, ?_⟩
  intro env st0 h
  have hnc : ¬ env.initChecked = true := by simp [h]
  simp only [solve_recaptcha, if_neg hnc]
  have he : (effectiveRetries (some 0) defaultRetries).toNat = 2 + 1 := rfl
  rw [he]
  simpa [countEv] using
    solveLoop_runs env 2 0 (env.initResponses.foldl extract_token st0)

/-- C8 (witness): calling with `retries=0` on the always-failing page
still performs an attempt. -/
theorem retries_falsy_fallback_witness :
    1 ≤ countEv .audioAttempt
      (solve_recaptcha envFail (some 0) defaultRetries none).events :=
  retries_falsy_fallback.2.2 envFail none rfl

/-- C9: `_submit_audio_text`'s wait loop also exits when the "Multiple
correct solutions required - please solve more." message is visible, so
it can return normally with the checkbox unchecked; the caller
re-checks the checkbox and, on an unsuccessful attempt, continues the
loop instead of treating the return as success. -/
theorem submit_normal_return_unchecked (obs : Nat → UiState) (i fuel : Nat)
    (env : Env) (k f : Nat) (st : Option String)
    (h1 : (obs i).multipleSolutions = true) (h2 : (obs i).checked = false)
    (ho : (env.attempts k).outcome = .submitted false) :
    submitLoop obs (fuel + 1) i = some (.returned false) ∧
    (solveLoop env (f + 1) k st).result =
      (solveLoop env f (k + 1)
        ((env.attempts k).responses.foldl extract_token st)).result := by
  constructor
  · simp [submitLoop, h1, h2]
  · simp [solveLoop, ho]

/-- C9 (witness): a frame showing the "multiple solutions" message with
the checkbox unchecked makes the wait loop return normally, and the
solve loop then proceeds to the next attempt. -/
theorem submit_normal_return_unchecked_witness :
    submitLoop uiMultiple (0 + 1) 0 = some (.returned false) ∧
    (solveLoop envFail (0 + 1) 0 none).result =
      (solveLoop envFail 0 (0 + 1)
        ((envFail.attempts 0).responses.foldl extract_token none)).result :=
  submit_normal_return_unchecked uiMultiple 0 0 envFail 0 0 none rfl rfl rfl

/-- Totality of `close`: the only exception `remove_listener` raises is
the `KeyError` that `close` swallows. -/
theorem close_total (ls : List String) : ∃ ls', close ls = Except.ok ls' := by
  unfold close remove_listener
  by_cases h : "extract_token" ∈ ls
  · rw [if_pos h]
    exact ⟨_, rfl⟩
  · rw [if_neg h]
    exact ⟨_, rfl⟩

/-- C10: `close` never raises and may be called again: every call
returns normally (a second call on the result included), and when the
listener was never registered the swallowed `KeyError` leaves the
registry untouched. -/
theorem close_never_raises (listeners : List String) :
    (∃ ls', close listeners = Except.ok ls' ∧ ∃ ls'', close ls' = Except.ok ls'') ∧
    ("extract_token" ∉ listeners → close listeners = Except.ok listeners) := by
  constructor
  · obtain ⟨ls', h1⟩ := close_total listeners
    exact ⟨ls', h1, close_total ls'⟩
  · intro h
    unfold close remove_listener
    rw [if_neg h]

/-- C10 (witness): closing with no listener registered completes
normally and leaves the empty registry unchanged. -/
theorem close_never_raises_witness :
    close ([] : List String) = Except.ok ([] : List String) :=
  (close_never_raises []).2 (by simp)

end SyncSolver
